import Mathlib

/-!
# The Animation component (src/src/components/Animation.js)

A shallow embedding of the effect body of the `Animation` React component:
the closure variables (`mixer`, `camera`, `scene`, `renderer`), the callbacks
`init`, `loadAsset` (with its load-completion callback), `onWindowResize`,
`animate`, and the cleanup function returned by the effect.

The three.js objects are kept as records of the fields the component reads
or writes.  Numbers are rationals, so `delta * 0.65` and
`innerWidth / innerHeight` are exact.  The browser is part of the state: the
window size, the registered resize listener, the issued loads, the number of
animation frames requested and not yet delivered, and the log of the calls
made by `animate`.  A dereference of a closure variable that is still
undefined is a thrown `TypeError`, modelled by `Except.error`.
-/

namespace Animation

/-- An animation clip, named. -/
abbrev Clip := String

/-- A child of the scene (an `Object3D`): its identity, its `type` tag and its
`animations` array. -/
structure Obj where
  uuid : Nat
  type : String
  animations : List Clip
deriving DecidableEq

/-- What `FBXLoader.load` hands to the completion callback: a freshly built
`THREE.Group` carrying the clips of the file. -/
structure Group where
  uuid : Nat
  animations : List Clip
deriving DecidableEq

/-- The group as a scene node; `type` of a `THREE.Group` is the string `Group`. -/
def Group.toObj (g : Group) : Obj := ⟨g.uuid, "Group", g.animations⟩

/-- The test `obj.type === 'Group'` of lines 130 and 131. -/
def isGroup (obj : Obj) : Bool := decide (obj.type = "Group")

/-- A clip action owned by a mixer: the clip and the uuid of the root it animates. -/
structure Action where
  clip : Clip
  root : Nat
deriving DecidableEq

/-- A `THREE.AnimationMixer`: the uuid of its root object, its accumulated
`time`, and the actions that are playing. -/
structure Mixer where
  root : Nat
  time : ℚ
  actions : List Action
deriving DecidableEq

/-- `new THREE.AnimationMixer(object)`. -/
def Mixer.create (object : Obj) : Mixer := ⟨object.uuid, 0, []⟩

/-- `mixer.clipAction(clip).play()`: an action on the mixer root starts playing. -/
def Mixer.clipActionPlay (m : Mixer) (clip : Clip) : Mixer :=
  { m with actions := m.actions ++ [⟨clip, m.root⟩] }

/-- `mixer.update(dt)`: the mixer time advances by `dt`. -/
def Mixer.update (m : Mixer) (dt : ℚ) : Mixer := { m with time := m.time + dt }

/-- `mixer.uncacheRoot(root)`: the actions whose root is `root` are dropped. -/
def Mixer.uncacheRoot (m : Mixer) (rootUuid : Nat) : Mixer :=
  { m with actions := m.actions.filter (fun a => decide (a.root ≠ rootUuid)) }

/-- A `THREE.Scene`: its uuid and its `children` array. -/
structure Scene where
  uuid : Nat
  children : List Obj
deriving DecidableEq

/-- `scene.remove(obj)`: the object is spliced out of `children` when present. -/
def Scene.remove (sc : Scene) (obj : Obj) : Scene :=
  { sc with children := sc.children.erase obj }

/-- `scene.add(obj)`: the object leaves its current parent and is pushed at the
end of `children`. -/
def Scene.add (sc : Scene) (obj : Obj) : Scene :=
  { sc with children := sc.children.erase obj ++ [obj] }

/-- A `THREE.PerspectiveCamera`, reduced to `aspect` and to the aspect baked
into the projection matrix by the last `updateProjectionMatrix()`. -/
structure Camera where
  aspect : ℚ
  projectionAspect : ℚ
deriving DecidableEq

/-- A `THREE.WebGLRenderer`, reduced to its size and whether it was disposed. -/
structure Renderer where
  width : ℚ
  height : ℚ
  disposed : Bool
deriving DecidableEq

/-- The calls `animate` makes, in the order it makes them. -/
inductive Call where
  | requestAnimationFrame
  | getDelta (delta : ℚ)
  | mixerUpdate (dt : ℚ)
  | render (children : List Obj) (aspect : ℚ)
deriving DecidableEq

/-- The closure variables of the component together with the browser state
they interact with. -/
structure Component where
  innerWidth : ℚ
  innerHeight : ℚ
  mountRef : Option (List String)
  mixer : Option Mixer
  camera : Option Camera
  scene : Option Scene
  renderer : Option Renderer
  resizeListener : Bool
  pendingLoads : List String
  scheduled : Nat
  calls : List Call
deriving DecidableEq

/-- The component before its effect runs, mounted in a window of the given size. -/
def blank (w h : ℚ) : Component :=
  { innerWidth := w, innerHeight := h, mountRef := some [], mixer := none,
    camera := none, scene := none, renderer := none, resizeListener := false,
    pendingLoads := [], scheduled := 0, calls := [] }

/-- The hemisphere light of line 57. -/
def hemiLight : Obj := ⟨1, "HemisphereLight", []⟩

/-- The directional light of line 64. -/
def dirLight : Obj := ⟨2, "DirectionalLight", []⟩

/-- The ground plane of line 74. -/
def mesh : Obj := ⟨3, "Mesh", []⟩

/-- The grid helper of line 83. -/
def grid : Obj := ⟨4, "GridHelper", []⟩

/-- The static entities in the order `init` adds them. -/
def staticEntities : List Obj := [hemiLight, dirLight, mesh, grid]

/-- The scene `init` builds (lines 49 to 90). -/
def initScene : Scene :=
  ((((⟨0, []⟩ : Scene).add hemiLight).add dirLight).add mesh).add grid

/-- The path template of line 127. -/
def assetUrl (asset : String) : String := "/fbx/" ++ asset ++ ".fbx"

/-- The function `loadAsset` up to the point where `loader.load` returns: the
request is issued, the callback runs later. -/
def loadAsset (asset : String) (s : Component) : Component :=
  { s with pendingLoads := s.pendingLoads ++ [assetUrl asset] }

/-- The load-completion callback of `loadAsset` (lines 127 to 149), on the
scene it closes over and the `mixer` variable. -/
def onLoad (group : Group) (scene : Scene) (mixer : Option Mixer) :
    Scene × Option Mixer :=
  let scene1 :=
    if scene.children.any isGroup then
      match scene.children.find? isGroup with
      | some obj => scene.remove obj
      | none => scene
    else scene
  let object := group.toObj
  let mixer1 :=
    match object.animations with
    | clip :: _ => some ((Mixer.create object).clipActionPlay clip)
    | [] => mixer
  (scene1.add object, mixer1)

/-- The loader delivers the group of an issued load: the callback runs on the
component. -/
def loadComplete (url : String) (group : Group) (s : Component) :
    Except String Component :=
  if url ∈ s.pendingLoads then
    match s.scene with
    | some scene =>
      let r := onLoad group scene s.mixer
      .ok { s with pendingLoads := s.pendingLoads.erase url,
                   scene := some r.1, mixer := r.2 }
    | none => .error "TypeError: scene is undefined"
  else .error "no such load was issued"

/-- The function `init` (lines 36 to 123). -/
def init (s : Component) : Except String Component :=
  let mount1 := s.mountRef.map (fun _ => ([] : List String))
  let aspect := s.innerWidth / s.innerHeight
  let s1 := loadAsset "Samba Dancing"
    { s with mountRef := mount1, camera := some ⟨aspect, aspect⟩,
             scene := some initScene }
  match mount1 with
  | none => .error "TypeError: mountRef.current is null"
  | some kids =>
    .ok { s1 with renderer := some ⟨s.innerWidth, s.innerHeight, false⟩,
                  mountRef := some (kids ++ ["canvas"]),
                  resizeListener := true }

/-- The function `onWindowResize` (lines 152 to 160). -/
def onWindowResize (s : Component) : Except String Component :=
  match s.camera, s.renderer with
  | some _, some r =>
    let aspect := s.innerWidth / s.innerHeight
    .ok { s with camera := some ⟨aspect, aspect⟩,
                 renderer := some { r with width := s.innerWidth, height := s.innerHeight } }
  | _, _ => .error "TypeError: camera or renderer is undefined"

/-- The window is resized to `w` by `h`: the listener runs if it is registered. -/
def resize (w h : ℚ) (s : Component) : Except String Component :=
  let s1 := { s with innerWidth := w, innerHeight := h }
  if s1.resizeListener then onWindowResize s1 else .ok s1

/-- The advance statement of line 169, `if (mixer) mixer.update(delta * 0.65)`. -/
def advance (delta : ℚ) (s : Component) : Component :=
  match s.mixer with
  | some m =>
    { s with mixer := some (m.update (delta * 0.65)),
             calls := s.calls ++ [Call.mixerUpdate (delta * 0.65)] }
  | none => s

/-- The function `animate` (lines 162 to 173); `delta` is what
`clock.getDelta()` returns in this frame. -/
def animate (delta : ℚ) (s : Component) : Except String Component :=
  let s1 := { s with scheduled := s.scheduled + 1,
                     calls := s.calls ++ [Call.requestAnimationFrame] }
  let s2 := { s1 with calls := s1.calls ++ [Call.getDelta delta] }
  let s3 := advance delta s2
  match s3.renderer, s3.scene, s3.camera with
  | some _, some scene, some camera =>
    .ok { s3 with calls := s3.calls ++ [Call.render scene.children camera.projectionAspect] }
  | _, _, _ => .error "TypeError: renderer, scene or camera is undefined"

/-- The browser delivers a requested animation frame, if one is pending. -/
def fireFrame (delta : ℚ) (s : Component) : Except String Component :=
  if s.scheduled = 0 then .ok s
  else animate delta { s with scheduled := s.scheduled - 1 }

/-- Successive frames, one per delta. -/
def frames : List ℚ → Component → Except String Component
  | [], s => .ok s
  | d :: ds, s =>
    match animate d s with
    | .ok s1 => frames ds s1
    | .error e => .error e

/-- The effect body: `init()` then `animate()` (lines 175 and 177). -/
def effect (delta0 : ℚ) (s : Component) : Except String Component :=
  match init s with
  | .ok s1 => animate delta0 s1
  | .error e => .error e

/-- The cleanup function returned by the effect (lines 180 to 188). -/
def cleanup (s : Component) : Except String Component :=
  let s1 := { s with resizeListener := false,
                     renderer := s.renderer.map (fun (r : Renderer) => { r with disposed := true }) }
  match s1.mixer, s1.scene with
  | some m, some scene => .ok { s1 with mixer := some (m.uncacheRoot scene.uuid) }
  | some _, none => .error "TypeError: scene is undefined"
  | none, _ => .ok s1

/-- Successive load completions, one per delivered group, on the scene and mixer. -/
def onLoads : List Group → Scene → Option Mixer → Scene × Option Mixer
  | [], scene, mixer => (scene, mixer)
  | g :: gs, scene, mixer =>
    let r := onLoad g scene mixer
    onLoads gs r.1 r.2

/-- The number of dynamic-asset nodes among the children. -/
def groupCount (children : List Obj) : Nat := children.countP isGroup

/-- The children that are not dynamic-asset nodes, in order. -/
def staticPart (children : List Obj) : List Obj :=
  children.filter (fun obj => !isGroup obj)

/-- The children after the removal of the first Group (lines 130 to 132). -/
def cleared (children : List Obj) : List Obj :=
  if children.any isGroup then
    match children.find? isGroup with
    | some obj => children.erase obj
    | none => children
  else children

/-- The arguments of the `mixer.update` calls in a call log, in order. -/
def updates : List Call → List ℚ
  | [] => []
  | Call.mixerUpdate dt :: cs => dt :: updates cs
  | _ :: cs => updates cs

/-- The component right after the effect body ran in a window of `w` by `h`,
the first `clock.getDelta()` having returned `delta0`. -/
def mounted (w h delta0 : ℚ) : Component :=
  { innerWidth := w, innerHeight := h, mountRef := some ["canvas"], mixer := none,
    camera := some ⟨w / h, w / h⟩, scene := some initScene,
    renderer := some ⟨w, h, false⟩, resizeListener := true,
    pendingLoads := [assetUrl "Samba Dancing"], scheduled := 1,
    calls := [Call.requestAnimationFrame, Call.getDelta delta0,
      Call.render initScene.children (w / h)] }

/-- A scene as `init` builds it, holding one loaded group in addition. -/
def sceneWith (g : Group) : Scene := ⟨0, staticEntities ++ [g.toObj]⟩

/-- Three delivered groups: with one clip, with none, with one clip. -/
def demoGroups : List Group := [⟨8, ["Walk"]⟩, ⟨9, []⟩, ⟨10, ["Run"]⟩]

/-- The calls of one frame: the frame request, the clock sample, the mixer
update when a mixer is bound, the render. -/
def frameCalls (delta : ℚ) (mixer : Option Mixer) (children : List Obj) (aspect : ℚ) :
    List Call :=
  [Call.requestAnimationFrame, Call.getDelta delta]
    ++ (if mixer.isSome then [Call.mixerUpdate (delta * 0.65)] else [])
    ++ [Call.render children aspect]

/-- The accumulated time of the bound mixer, zero when none is bound. -/
def mixerTime (s : Component) : ℚ :=
  match s.mixer with
  | some m => m.time
  | none => 0

/-- The values `clock.getDelta()` returned in a call log, in order. -/
def samples : List Call → List ℚ
  | [] => []
  | Call.getDelta delta :: cs => delta :: samples cs
  | _ :: cs => samples cs

/-- Whether a call is a `renderer.render` call. -/
def isRender : Call → Bool
  | Call.render _ _ => true
  | _ => false

/-- The component after the effect ran at 800 by 600 and a load of `Walk`,
issued afterwards, delivered a group with one clip. -/
def walkLoaded : Component :=
  { mounted 800 600 0 with
    scene := some (sceneWith ⟨10, ["Walk"]⟩),
    mixer := some ⟨10, 0, [⟨"Walk", 10⟩]⟩ }

/-! ## The effect body -/

theorem effect_blank (w h delta0 : ℚ) : effect delta0 (blank w h) = .ok (mounted w h delta0) := by
  simp [effect, init, animate, advance, loadAsset, blank, mounted]

/-! ## Lists of scene children -/

theorem isGroup_toObj (g : Group) : isGroup g.toObj = true := by
  simp [isGroup, Group.toObj]

theorem toObj_injective {g1 g2 : Group} (h : g1.toObj = g2.toObj) : g1 = g2 := by
  cases g1; cases g2
  simp [Group.toObj] at h
  simp [h]

theorem staticPart_erase (l : List Obj) (o : Obj) (ho : isGroup o = true) :
    staticPart (l.erase o) = staticPart l := by
  induction l with
  | nil => rfl
  | cons a t ih =>
    by_cases hao : a = o
    · subst hao
      simp [staticPart, ho]
    · have hbeq : (a == o) = false := by simpa using hao
      rw [List.erase_cons, hbeq]
      simp only [staticPart] at ih ⊢
      simp only [Bool.false_eq_true, if_false, List.filter_cons, ih]

theorem staticPart_eq_self (l : List Obj) (h : groupCount l = 0) : staticPart l = l := by
  unfold groupCount at h
  rw [List.countP_eq_zero] at h
  unfold staticPart
  rw [List.filter_eq_self]
  intro a ha
  simpa using h a ha

theorem groupCount_staticPart (l : List Obj) : groupCount (staticPart l) = 0 := by
  unfold groupCount staticPart
  rw [List.countP_eq_zero]
  intro a ha
  have := (List.mem_filter.mp ha).2
  simpa using this

theorem groupCount_erase (l : List Obj) (o : Obj) (hmem : o ∈ l) (ho : isGroup o = true) :
    groupCount (l.erase o) + 1 = groupCount l := by
  unfold groupCount
  rw [(List.perm_cons_erase hmem).countP_eq isGroup, List.countP_cons_of_pos _ _ ho]

theorem toObj_not_mem (l : List Obj) (g : Group) (h : groupCount l = 0) : g.toObj ∉ l := by
  unfold groupCount at h
  rw [List.countP_eq_zero] at h
  intro hm
  exact h _ hm (isGroup_toObj g)

theorem staticPart_cleared (l : List Obj) : staticPart (cleared l) = staticPart l := by
  unfold cleared
  split
  · split
    · rename_i obj hf
      exact staticPart_erase l obj (List.find?_some hf)
    · rfl
  · rfl

theorem groupCount_cleared (l : List Obj) : groupCount (cleared l) = groupCount l - 1 := by
  unfold cleared
  split
  · split
    · rename_i obj hf
      have := groupCount_erase l obj (List.mem_of_find?_eq_some hf) (List.find?_some hf)
      omega
    · rename_i hany hf
      rw [List.find?_eq_none] at hf
      have : groupCount l = 0 := by
        unfold groupCount
        rw [List.countP_eq_zero]
        intro a ha
        simpa using hf a ha
      omega
  · rename_i hany
    have : groupCount l = 0 := by
      unfold groupCount
      rw [List.countP_eq_zero]
      intro a ha hga
      exact hany (List.any_eq_true.mpr ⟨a, ha, hga⟩)
    omega

theorem cleared_of_le_one (l : List Obj) (h : groupCount l ≤ 1) : cleared l = staticPart l := by
  have h0 : groupCount (cleared l) = 0 := by rw [groupCount_cleared]; omega
  rw [← staticPart_cleared, staticPart_eq_self _ h0]

/-! ## The load-completion callback -/

theorem onLoad_children (g : Group) (sc : Scene) (m : Option Mixer) :
    (onLoad g sc m).1.children = (cleared sc.children).erase g.toObj ++ [g.toObj] := by
  unfold onLoad cleared
  by_cases hany : sc.children.any isGroup = true
  · simp only [hany, if_true]
    cases hf : sc.children.find? isGroup <;> simp [Scene.add, Scene.remove]
  · simp [hany, Scene.add]

theorem onLoad_children_of_le_one (g : Group) (sc : Scene) (m : Option Mixer)
    (h : groupCount sc.children ≤ 1) :
    (onLoad g sc m).1.children = staticPart sc.children ++ [g.toObj] := by
  rw [onLoad_children, cleared_of_le_one _ h,
    List.erase_of_not_mem (toObj_not_mem _ g (groupCount_staticPart _))]

theorem staticPart_onLoad (g : Group) (sc : Scene) (m : Option Mixer) :
    staticPart (onLoad g sc m).1.children = staticPart sc.children := by
  rw [onLoad_children]
  have : staticPart ((cleared sc.children).erase g.toObj ++ [g.toObj])
      = staticPart ((cleared sc.children).erase g.toObj) := by
    simp [staticPart, isGroup_toObj]
  rw [this, staticPart_erase _ _ (isGroup_toObj g), staticPart_cleared]

theorem groupCount_onLoad (g : Group) (sc : Scene) (m : Option Mixer)
    (h : groupCount sc.children ≤ 1) : groupCount (onLoad g sc m).1.children = 1 := by
  rw [onLoad_children_of_le_one g sc m h]
  have h0 := groupCount_staticPart sc.children
  unfold groupCount at h0 ⊢
  rw [List.countP_append, h0]
  simp [isGroup_toObj]

theorem groupCount_onLoads (gs : List Group) (sc : Scene) (m : Option Mixer)
    (h : groupCount sc.children ≤ 1) : groupCount (onLoads gs sc m).1.children ≤ 1 := by
  induction gs generalizing sc m with
  | nil => exact h
  | cons g gs ih =>
    exact ih _ _ (le_of_eq (groupCount_onLoad g sc m h))

theorem staticPart_onLoads (gs : List Group) (sc : Scene) (m : Option Mixer) :
    staticPart (onLoads gs sc m).1.children = staticPart sc.children := by
  induction gs generalizing sc m with
  | nil => rfl
  | cons g gs ih =>
    show staticPart (onLoads gs _ _).1.children = _
    rw [ih, staticPart_onLoad]

theorem loadComplete_ok (url : String) (g : Group) (s : Component) (sc : Scene)
    (hs : s.scene = some sc) (hu : url ∈ s.pendingLoads) :
    loadComplete url g s =
      .ok { s with pendingLoads := s.pendingLoads.erase url,
                   scene := some (onLoad g sc s.mixer).1,
                   mixer := (onLoad g sc s.mixer).2 } := by
  simp [loadComplete, hs, hu]

theorem filter_isGroup_staticPart (l : List Obj) : (staticPart l).filter isGroup = [] := by
  have h0 := groupCount_staticPart l
  unfold groupCount at h0
  rw [List.countP_eq_zero] at h0
  rw [List.filter_eq_nil_iff]
  exact h0

theorem mem_erase_issued (P : List String) (u v : String) :
    v ∈ (P ++ [u] ++ [v]).erase u ∧ v ∈ (P ++ [v] ++ [u]).erase u := by
  by_cases huv : u = v
  · subst huv
    have hc : 0 < List.count u ((P ++ [u] ++ [u]).erase u) := by
      rw [List.count_erase_self]
      simp
    exact ⟨List.count_pos_iff.mp hc, List.count_pos_iff.mp hc⟩
  · have hvu : v ≠ u := fun h => huv h.symm
    exact ⟨(List.mem_erase_of_ne hvu).mpr (by simp), (List.mem_erase_of_ne hvu).mpr (by simp)⟩

theorem onLoad_twice_children (ga gb : Group) (sc : Scene) (m m1 : Option Mixer)
    (h : groupCount sc.children ≤ 1) :
    (onLoad gb (onLoad ga sc m).1 m1).1.children = staticPart sc.children ++ [gb.toObj] := by
  rw [onLoad_children_of_le_one gb _ m1 (le_of_eq (groupCount_onLoad ga sc m h)),
    staticPart_onLoad]

/-! ## The frame callback -/

theorem updates_append (a b : List Call) : updates (a ++ b) = updates a ++ updates b := by
  induction a with
  | nil => rfl
  | cons x t ih => cases x <;> simp [updates, ih]

theorem animate_ok (d : ℚ) (s : Component) (r : Renderer) (sc : Scene) (c : Camera)
    (hr : s.renderer = some r) (hs : s.scene = some sc) (hc : s.camera = some c) :
    animate d s =
      .ok { s with scheduled := s.scheduled + 1,
                   mixer := s.mixer.map (fun m => m.update (d * 0.65)),
                   calls := s.calls ++ frameCalls d s.mixer sc.children c.projectionAspect } := by
  cases hm : s.mixer <;> simp [animate, advance, frameCalls, hm, hr, hs, hc]

theorem frames_ok (ds : List ℚ) (s : Component) (r : Renderer) (sc : Scene) (c : Camera)
    (hr : s.renderer = some r) (hs : s.scene = some sc) (hc : s.camera = some c) :
    ∃ s1, frames ds s = .ok s1 ∧ s1.renderer = some r ∧ s1.scene = some sc ∧
      s1.camera = some c ∧ s1.scheduled = s.scheduled + ds.length ∧
      s1.mixer = s.mixer.map (fun m => ⟨m.root, m.time + 0.65 * ds.sum, m.actions⟩) ∧
      updates s1.calls
        = updates s.calls ++ (if s.mixer.isSome then ds.map (fun d => d * 0.65) else []) := by
  induction ds generalizing s with
  | nil =>
    refine ⟨s, rfl, hr, hs, hc, rfl, ?_, ?_⟩
    · cases s.mixer <;> simp
    · simp
  | cons d ds ih =>
    obtain ⟨s1, h1, h2, h3, h4, h5, h6, h7⟩ := ih
      { s with scheduled := s.scheduled + 1,
               mixer := s.mixer.map (fun m => m.update (d * 0.65)),
               calls := s.calls ++ frameCalls d s.mixer sc.children c.projectionAspect }
      hr hs hc
    refine ⟨s1, ?_, h2, h3, h4, ?_, ?_, ?_⟩
    · simp only [frames, animate_ok d s r sc c hr hs hc]
      exact h1
    · rw [h5]
      simp only [List.length_cons]
      omega
    · rw [h6]
      cases s.mixer with
      | none => rfl
      | some m =>
        simp only [Option.map_some', Mixer.update, List.sum_cons, Option.some.injEq,
          Mixer.mk.injEq, true_and, and_true]
        ring
    · rw [h7]
      cases s.mixer with
      | none => simp [updates_append, frameCalls, updates]
      | some m => simp [updates_append, frameCalls, updates]

theorem sum_map_rate (ds : List ℚ) : (ds.map (fun x => x * 0.65)).sum = 0.65 * ds.sum := by
  induction ds with
  | nil => simp
  | cons x xs ih =>
    simp only [List.map_cons, List.sum_cons, ih]
    ring

theorem walk_loaded :
    loadComplete (assetUrl "Walk") ⟨10, ["Walk"]⟩ (loadAsset "Walk" (mounted 800 600 0))
      = .ok walkLoaded := by
  rfl

theorem onLoad_mixer_nil (g : Group) (sc : Scene) (m : Option Mixer)
    (hg : g.animations = []) : (onLoad g sc m).2 = m := by
  simp [onLoad, Group.toObj, hg]

theorem onLoad_mixer_cons (g : Group) (sc : Scene) (m : Option Mixer) (clip : Clip)
    (rest : List Clip) (hg : g.animations = clip :: rest) :
    (onLoad g sc m).2 = some ⟨g.uuid, 0, [⟨clip, g.uuid⟩]⟩ := by
  simp [onLoad, Group.toObj, hg, Mixer.create, Mixer.clipActionPlay]

/-! ## The cleanup function -/

theorem uncacheRoot_twice (m : Mixer) (u : Nat) :
    (m.uncacheRoot u).uncacheRoot u = m.uncacheRoot u := by
  simp [Mixer.uncacheRoot, List.filter_filter]

theorem cleanup_ok (s : Component) (sc : Scene) (hs : s.scene = some sc) :
    cleanup s =
      .ok { s with resizeListener := false,
                   renderer := s.renderer.map (fun r => ⟨r.width, r.height, true⟩),
                   mixer := s.mixer.map (fun m => m.uncacheRoot sc.uuid) } := by
  cases hm : s.mixer <;> simp [cleanup, hs, hm]

theorem cleanup_spec (s : Component) (sc : Scene) (hs : s.scene = some sc) :
    ∃ s1, cleanup s = .ok s1 ∧ cleanup s1 = .ok s1 ∧ s1.resizeListener = false ∧
      s1.renderer = s.renderer.map (fun r => ⟨r.width, r.height, true⟩) ∧
      s1.scene = s.scene ∧ s1.camera = s.camera ∧ s1.scheduled = s.scheduled ∧
      s1.calls = s.calls ∧ s1.pendingLoads = s.pendingLoads ∧
      s1.mixer = s.mixer.map (fun m => m.uncacheRoot sc.uuid) := by
  refine ⟨_, cleanup_ok s sc hs, ?_, rfl, rfl, rfl, rfl, rfl, rfl, rfl, rfl⟩
  refine (cleanup_ok
    { s with resizeListener := false,
             renderer := s.renderer.map (fun r => ⟨r.width, r.height, true⟩),
             mixer := s.mixer.map (fun m => m.uncacheRoot sc.uuid) } sc hs).trans ?_
  cases hm : s.mixer <;> cases hr : s.renderer <;> simp [uncacheRoot_twice]

theorem fireFrame_spec (d : ℚ) (s : Component) (r : Renderer) (sc : Scene) (c : Camera)
    (hr : s.renderer = some r) (hs : s.scene = some sc) (hc : s.camera = some c)
    (hp : 0 < s.scheduled) :
    ∃ s1, fireFrame d s = .ok s1 ∧ s1.scheduled = s.scheduled ∧
      s1.calls = s.calls ++ frameCalls d s.mixer sc.children c.projectionAspect := by
  have hne : s.scheduled ≠ 0 := by omega
  have h : fireFrame d s = animate d { s with scheduled := s.scheduled - 1 } := by
    simp [fireFrame, hne]
  rw [h, animate_ok d { s with scheduled := s.scheduled - 1 } r sc c hr hs hc]
  refine ⟨_, rfl, ?_, rfl⟩
  show s.scheduled - 1 + 1 = s.scheduled
  omega

/-! ## Claims -/

/-- C1: starting from any scene with at most one Group child, and in particular
from the scene built by `init`, which has none, the scene has at most one
Group child after each load-completion callback of any finite sequence of
them, whatever groups are delivered. -/
theorem at_most_one_dynamic_asset (sc : Scene) (m : Option Mixer) (gs : List Group)
    (k : Nat) (h : groupCount sc.children ≤ 1) :
    groupCount (onLoads (gs.take k) sc m).1.children ≤ 1 ∧
      groupCount initScene.children = 0 ∧
      groupCount (onLoads (gs.take k) initScene m).1.children ≤ 1 :=
  ⟨groupCount_onLoads _ sc m h, by decide,
    groupCount_onLoads _ initScene m (by decide)⟩

theorem at_most_one_dynamic_asset_witness :
    groupCount (sceneWith ⟨7, []⟩).children ≤ 1 ∧
      (groupCount (onLoads (demoGroups.take 2) (sceneWith ⟨7, []⟩) none).1.children ≤ 1 ∧
        groupCount initScene.children = 0 ∧
        groupCount (onLoads (demoGroups.take 2) initScene none).1.children ≤ 1) :=
  ⟨by decide, at_most_one_dynamic_asset (sceneWith ⟨7, []⟩) none demoGroups 2 (by decide)⟩

/-- C2: two loads are issued, in either order, from a state whose scene has at
most one Group child; the callback of the first delivers `ga`, then the
callback of the second delivers `gb`, a different group.  Both callbacks run,
the only Group child of the scene is then `gb`, and `ga` is not a child. -/
theorem last_completed_wins (s s0 : Component) (sc : Scene) (a b : String) (ga gb : Group)
    (hs : s.scene = some sc) (h1 : groupCount sc.children ≤ 1) (hne : ga ≠ gb)
    (hissue : s0 = loadAsset b (loadAsset a s) ∨ s0 = loadAsset a (loadAsset b s)) :
    ∃ s1 s2 sc2, loadComplete (assetUrl a) ga s0 = .ok s1 ∧
      loadComplete (assetUrl b) gb s1 = .ok s2 ∧ s2.scene = some sc2 ∧
      sc2.children.filter isGroup = [gb.toObj] ∧ ga.toObj ∉ sc2.children := by
  have hs0 : s0.scene = some sc := by
    rcases hissue with h | h <;> simp [h, loadAsset, hs]
  have hua : assetUrl a ∈ s0.pendingLoads := by
    rcases hissue with h | h <;> simp [h, loadAsset]
  have hub : assetUrl b ∈ s0.pendingLoads.erase (assetUrl a) := by
    rcases hissue with h | h
    · rw [h]
      exact (mem_erase_issued s.pendingLoads (assetUrl a) (assetUrl b)).1
    · rw [h]
      exact (mem_erase_issued s.pendingLoads (assetUrl a) (assetUrl b)).2
  refine ⟨_, _, _, loadComplete_ok _ ga s0 sc hs0 hua,
    loadComplete_ok _ gb _ (onLoad ga sc s0.mixer).1 rfl hub, rfl, ?_, ?_⟩
  · show List.filter isGroup (onLoad gb (onLoad ga sc s0.mixer).1 _).1.children = _
    rw [onLoad_twice_children ga gb sc _ _ h1, List.filter_append, filter_isGroup_staticPart]
    simp [isGroup_toObj]
  · show ga.toObj ∉ (onLoad gb (onLoad ga sc s0.mixer).1 _).1.children
    rw [onLoad_twice_children ga gb sc _ _ h1]
    intro hmem
    rcases List.mem_append.mp hmem with hm | hm
    · exact toObj_not_mem _ ga (groupCount_staticPart _) hm
    · exact hne (toObj_injective (by simpa using hm))

theorem last_completed_wins_witness :
    (mounted 800 600 0).scene = some initScene ∧ groupCount initScene.children ≤ 1 ∧
      (⟨8, ["Walk"]⟩ : Group) ≠ ⟨9, ["Run"]⟩ ∧
      ∃ s1 s2 sc2,
        loadComplete (assetUrl "Walk") ⟨8, ["Walk"]⟩
          (loadAsset "Walk" (loadAsset "Run" (mounted 800 600 0))) = .ok s1 ∧
        loadComplete (assetUrl "Run") ⟨9, ["Run"]⟩ s1 = .ok s2 ∧ s2.scene = some sc2 ∧
        sc2.children.filter isGroup = [Group.toObj ⟨9, ["Run"]⟩] ∧
        Group.toObj ⟨8, ["Walk"]⟩ ∉ sc2.children :=
  ⟨rfl, by decide, by decide,
    last_completed_wins (mounted 800 600 0) _ initScene "Walk" "Run" ⟨8, ["Walk"]⟩ ⟨9, ["Run"]⟩
      rfl (by decide) (by decide) (Or.inr rfl)⟩

/-- C8: a load-completion callback leaves the children that are not Groups as
they were, in the same order, on every scene; the scene built by `init` has
the four static entities as its children, and after any sequence of callbacks
followed by one more its children are the four static entities, in the order
`init` added them, followed by the group delivered last. -/
theorem static_entities_preserved (g : Group) (sc : Scene) (m : Option Mixer)
    (gs : List Group) (w h : ℚ) :
    staticPart (onLoad g sc m).1.children = staticPart sc.children ∧
      (∃ s1, init (blank w h) = .ok s1 ∧ s1.scene = some initScene) ∧
      initScene.children = [hemiLight, dirLight, mesh, grid] ∧
      staticPart initScene.children = [hemiLight, dirLight, mesh, grid] ∧
      (onLoad g (onLoads gs initScene m).1 (onLoads gs initScene m).2).1.children
        = [hemiLight, dirLight, mesh, grid] ++ [g.toObj] := by
  refine ⟨staticPart_onLoad g sc m, ⟨_, rfl, rfl⟩, by decide, by decide, ?_⟩
  rw [onLoad_children_of_le_one g _ _ (groupCount_onLoads gs initScene m (by decide)),
    staticPart_onLoads]
  have : staticPart initScene.children = [hemiLight, dirLight, mesh, grid] := by decide
  rw [this]

/-- C7, as the code has it: a frame callback run on an initialised component
requests the next frame, samples the clock once, and renders last.  When a
mixer is bound, exactly one `mixer.update(delta * 0.65)` stands between the
sample and the render, and the mixer time grows by `delta * 0.65`; when no
mixer is bound, the guard of line 169 issues no update and the render follows
the sample directly.  No frame passes its delta to the mixer twice. -/
theorem advance_precedes_render (d : ℚ) (s : Component) (r : Renderer) (sc : Scene)
    (c : Camera) (hr : s.renderer = some r) (hs : s.scene = some sc)
    (hc : s.camera = some c) :
    ∃ s1 pre, animate d s = .ok s1 ∧
      s1.calls = s.calls ++ pre ++ [Call.render sc.children c.projectionAspect] ∧
      pre = (match s.mixer with
        | some _ => [Call.requestAnimationFrame, Call.getDelta d, Call.mixerUpdate (d * 0.65)]
        | none => [Call.requestAnimationFrame, Call.getDelta d]) ∧
      pre.any isRender = false ∧
      samples pre = [d] ∧
      updates pre = (match s.mixer with
        | some _ => [d * 0.65]
        | none => []) ∧
      s1.mixer = s.mixer.map (fun m => ⟨m.root, m.time + d * 0.65, m.actions⟩) ∧
      s1.mixer = (advance d s).mixer ∧
      s1.scene = s.scene ∧ s1.scheduled = s.scheduled + 1 := by
  refine ⟨_, _, animate_ok d s r sc c hr hs hc, ?_, rfl, ?_, ?_, ?_, ?_, ?_, rfl, rfl⟩
  · cases s.mixer <;> simp [frameCalls]
  · cases s.mixer <;> simp [isRender]
  · cases s.mixer <;> simp [samples]
  · cases s.mixer <;> simp [updates]
  · cases s.mixer <;> simp [Mixer.update]
  · cases hm : s.mixer <;> simp [advance, hm]

theorem advance_precedes_render_witness :
    (walkLoaded.renderer = some ⟨800, 600, false⟩ ∧
      walkLoaded.scene = some (sceneWith ⟨10, ["Walk"]⟩) ∧
      walkLoaded.camera = some ⟨800 / 600, 800 / 600⟩ ∧
      walkLoaded.mixer = some ⟨10, 0, [⟨"Walk", 10⟩]⟩ ∧
      ∃ s1 pre, animate (1 / 60) walkLoaded = .ok s1 ∧
        s1.calls = walkLoaded.calls ++ pre
          ++ [Call.render (sceneWith ⟨10, ["Walk"]⟩).children
                (Camera.mk (800 / 600) (800 / 600)).projectionAspect] ∧
        pre = (match walkLoaded.mixer with
          | some _ => [Call.requestAnimationFrame, Call.getDelta (1 / 60),
              Call.mixerUpdate (1 / 60 * 0.65)]
          | none => [Call.requestAnimationFrame, Call.getDelta (1 / 60)]) ∧
        pre.any isRender = false ∧
        samples pre = [1 / 60] ∧
        updates pre = (match walkLoaded.mixer with
          | some _ => [1 / 60 * 0.65]
          | none => []) ∧
        s1.mixer = walkLoaded.mixer.map
          (fun m => ⟨m.root, m.time + 1 / 60 * 0.65, m.actions⟩) ∧
        s1.mixer = (advance (1 / 60) walkLoaded).mixer ∧
        s1.scene = walkLoaded.scene ∧ s1.scheduled = walkLoaded.scheduled + 1) ∧
    ((mounted 800 600 0).renderer = some ⟨800, 600, false⟩ ∧
      (mounted 800 600 0).scene = some initScene ∧
      (mounted 800 600 0).camera = some ⟨800 / 600, 800 / 600⟩ ∧
      (mounted 800 600 0).mixer = none ∧
      ∃ s1 pre, animate (1 / 60) (mounted 800 600 0) = .ok s1 ∧
        s1.calls = (mounted 800 600 0).calls ++ pre
          ++ [Call.render initScene.children
                (Camera.mk (800 / 600) (800 / 600)).projectionAspect] ∧
        pre = (match (mounted 800 600 0).mixer with
          | some _ => [Call.requestAnimationFrame, Call.getDelta (1 / 60),
              Call.mixerUpdate (1 / 60 * 0.65)]
          | none => [Call.requestAnimationFrame, Call.getDelta (1 / 60)]) ∧
        pre.any isRender = false ∧
        samples pre = [1 / 60] ∧
        updates pre = (match (mounted 800 600 0).mixer with
          | some _ => [1 / 60 * 0.65]
          | none => []) ∧
        s1.mixer = (mounted 800 600 0).mixer.map
          (fun m => ⟨m.root, m.time + 1 / 60 * 0.65, m.actions⟩) ∧
        s1.mixer = (advance (1 / 60) (mounted 800 600 0)).mixer ∧
        s1.scene = (mounted 800 600 0).scene ∧
        s1.scheduled = (mounted 800 600 0).scheduled + 1) :=
  ⟨⟨rfl, rfl, rfl, rfl,
      advance_precedes_render (1 / 60) walkLoaded ⟨800, 600, false⟩
        (sceneWith ⟨10, ["Walk"]⟩) ⟨800 / 600, 800 / 600⟩ rfl rfl rfl⟩,
    ⟨rfl, rfl, rfl, rfl,
      advance_precedes_render (1 / 60) (mounted 800 600 0) ⟨800, 600, false⟩ initScene
        ⟨800 / 600, 800 / 600⟩ rfl rfl rfl⟩⟩

/-- C7 fails as stated: the frame that the effect itself runs (line 177) happens
before any load can complete, with no mixer bound; it samples the clock and
renders, and no `mixer.update` call precedes the render.  The same holds for
the next frame delivered while the load is still pending. -/
theorem idle_frame_counterexample :
    ∃ s0 s1, effect 0 (blank 800 600) = .ok s0 ∧
      s0.calls = [Call.requestAnimationFrame, Call.getDelta 0,
        Call.render initScene.children (800 / 600)] ∧
      updates s0.calls = [] ∧ s0.mixer = none ∧
      fireFrame (1 / 60) s0 = .ok s1 ∧
      s1.calls = s0.calls ++ [Call.requestAnimationFrame, Call.getDelta (1 / 60),
        Call.render initScene.children (800 / 600)] ∧
      updates s1.calls = [] :=
  ⟨_, _, rfl, rfl, rfl, rfl, rfl, rfl, rfl⟩

/-- C10: when no mixer is bound, the advance statement of line 169 leaves the
whole component as it is, for every delta; the frame raises no error, leaves
the mixer unbound and the scene, camera and renderer untouched, renders, and
has requested one more frame. -/
theorem idle_advance_noop (d : ℚ) (s : Component) (r : Renderer) (sc : Scene)
    (c : Camera) (hr : s.renderer = some r) (hs : s.scene = some sc)
    (hc : s.camera = some c) (hm : s.mixer = none) :
    advance d s = s ∧
      ∃ s1, animate d s = .ok s1 ∧ s1.mixer = none ∧ s1.scene = s.scene ∧
        s1.camera = s.camera ∧ s1.renderer = s.renderer ∧
        s1.scheduled = s.scheduled + 1 ∧
        s1.calls = s.calls ++ [Call.requestAnimationFrame, Call.getDelta d,
          Call.render sc.children c.projectionAspect] := by
  refine ⟨by simp [advance, hm], _, animate_ok d s r sc c hr hs hc, ?_, rfl, rfl, rfl, rfl, ?_⟩
  · simp [hm]
  · simp [frameCalls, hm]

theorem idle_advance_noop_witness :
    (mounted 800 600 0).renderer = some ⟨800, 600, false⟩ ∧
      (mounted 800 600 0).scene = some initScene ∧
      (mounted 800 600 0).camera = some ⟨800 / 600, 800 / 600⟩ ∧
      (mounted 800 600 0).mixer = none ∧
      (advance (1 / 60) (mounted 800 600 0) = mounted 800 600 0 ∧
        ∃ s1, animate (1 / 60) (mounted 800 600 0) = .ok s1 ∧ s1.mixer = none ∧
          s1.scene = (mounted 800 600 0).scene ∧
          s1.camera = (mounted 800 600 0).camera ∧
          s1.renderer = (mounted 800 600 0).renderer ∧
          s1.scheduled = (mounted 800 600 0).scheduled + 1 ∧
          s1.calls = (mounted 800 600 0).calls ++ [Call.requestAnimationFrame,
            Call.getDelta (1 / 60),
            Call.render initScene.children
              (Camera.mk (800 / 600) (800 / 600)).projectionAspect]) :=
  ⟨rfl, rfl, rfl, rfl,
    idle_advance_noop (1 / 60) (mounted 800 600 0) ⟨800, 600, false⟩ initScene
      ⟨800 / 600, 800 / 600⟩ rfl rfl rfl rfl⟩

/-- C9: with the window at `w` by `h`, both positive, `onWindowResize` on an
initialised component sets the camera aspect to `w / h`, rebuilds the
projection from it and sets the renderer size to `(w, h)`; the next frame
renders with that aspect.  A resize event reaches the function while the
listener is registered.  At 800 by 600 the aspect is 4/3. -/
theorem resize_sets_aspect (w h d : ℚ) (s : Component) (r : Renderer) (sc : Scene)
    (c : Camera) (hr : s.renderer = some r) (hs : s.scene = some sc)
    (hc : s.camera = some c) (hw : 0 < w) (hh : 0 < h) :
    ∃ s1 s2, onWindowResize { s with innerWidth := w, innerHeight := h } = .ok s1 ∧
      s1.camera = some ⟨w / h, w / h⟩ ∧ 0 < w / h ∧
      s1.renderer = some ⟨w, h, r.disposed⟩ ∧
      (s.resizeListener = true → resize w h s = .ok s1) ∧
      animate d s1 = .ok s2 ∧
      s2.calls.getLast? = some (Call.render sc.children (w / h)) ∧
      ∃ s3, resize 800 600 (mounted 1024 768 0) = .ok s3 ∧
        s3.camera = some ⟨4 / 3, 4 / 3⟩ ∧ s3.renderer = some ⟨800, 600, false⟩ := by
  have h1 : onWindowResize { s with innerWidth := w, innerHeight := h }
      = .ok { s with innerWidth := w, innerHeight := h, camera := some ⟨w / h, w / h⟩,
                     renderer := some ⟨w, h, r.disposed⟩ } := by
    simp [onWindowResize, hr, hc]
  refine ⟨_, _, h1, rfl, div_pos hw hh, rfl, ?_, animate_ok d _ ⟨w, h, r.disposed⟩ sc
    ⟨w / h, w / h⟩ rfl hs rfl, ?_, ?_⟩
  · intro hl
    show (if s.resizeListener = true then
      onWindowResize { s with innerWidth := w, innerHeight := h }
      else .ok { s with innerWidth := w, innerHeight := h }) = _
    rw [if_pos hl, h1]
  · cases s.mixer <;> simp [frameCalls]
  · refine ⟨_, by simp [resize, mounted, onWindowResize]; rfl, ?_, rfl⟩
    norm_num

theorem resize_sets_aspect_witness :
    (mounted 1024 768 0).renderer = some ⟨1024, 768, false⟩ ∧
      (mounted 1024 768 0).scene = some initScene ∧
      (mounted 1024 768 0).camera = some ⟨1024 / 768, 1024 / 768⟩ ∧
      (0 : ℚ) < 800 ∧ (0 : ℚ) < 600 ∧
      ∃ s1 s2,
        onWindowResize { mounted 1024 768 0 with innerWidth := 800, innerHeight := 600 }
          = .ok s1 ∧
        s1.camera = some ⟨800 / 600, 800 / 600⟩ ∧ (0 : ℚ) < 800 / 600 ∧
        s1.renderer = some ⟨800, 600, (Renderer.mk 1024 768 false).disposed⟩ ∧
        ((mounted 1024 768 0).resizeListener = true →
          resize 800 600 (mounted 1024 768 0) = .ok s1) ∧
        animate (1 / 60) s1 = .ok s2 ∧
        s2.calls.getLast? = some (Call.render initScene.children (800 / 600)) ∧
        ∃ s3, resize 800 600 (mounted 1024 768 0) = .ok s3 ∧
          s3.camera = some ⟨4 / 3, 4 / 3⟩ ∧ s3.renderer = some ⟨800, 600, false⟩ :=
  ⟨rfl, rfl, rfl, by decide, by decide,
    resize_sets_aspect 800 600 (1 / 60) (mounted 1024 768 0) ⟨1024, 768, false⟩ initScene
      ⟨1024 / 768, 1024 / 768⟩ rfl rfl rfl (by decide) (by decide)⟩

/-- C4: while a mixer is bound, frames with deltas `ds` pass the mixer the times
`d * 0.65`, one per frame, whose sum is `0.65 * (sum of ds)`, and the mixer
time grows by exactly that; one more frame with a non-negative delta does not
decrease it.  After the effect, a load of `Walk` delivering one clip binds a
mixer; from there deltas 0.1 and 0.2 give 0.195, and five deltas of 1/60 leave
the mixer bound, playing the clip, at 13/240. -/
theorem clip_time_accumulates (ds : List ℚ) (d : ℚ) (s : Component) (r : Renderer)
    (sc : Scene) (c : Camera) (m : Mixer) (hr : s.renderer = some r)
    (hs : s.scene = some sc) (hc : s.camera = some c) (hm : s.mixer = some m)
    (hd : 0 ≤ d) :
    (∃ s1 s2 m1 m2, frames ds s = .ok s1 ∧ s1.mixer = some m1 ∧
      m1.time = m.time + 0.65 * ds.sum ∧
      updates s1.calls = updates s.calls ++ ds.map (fun x => x * 0.65) ∧
      (ds.map (fun x => x * 0.65)).sum = 0.65 * ds.sum ∧
      frames (ds ++ [d]) s = .ok s2 ∧ s2.mixer = some m2 ∧ m1.time ≤ m2.time) ∧
    ∃ t0 t1 t2 t3 n1 n2 n3, effect 0 (blank 800 600) = .ok t0 ∧
      loadComplete (assetUrl "Walk") ⟨10, ["Walk"]⟩ (loadAsset "Walk" t0)
        = .ok t1 ∧ t1.mixer = some n1 ∧ n1.time = 0 ∧
      frames [0.1, 0.2] t1 = .ok t2 ∧ t2.mixer = some n2 ∧ n2.time = 0.195 ∧
      frames (List.replicate 5 (1 / 60)) t1 = .ok t3 ∧ t3.mixer = some n3 ∧
      n3.actions = [⟨"Walk", 10⟩] ∧ n3.time = 13 / 240 := by
  constructor
  · obtain ⟨s1, h1, _, _, _, _, h6, h7⟩ := frames_ok ds s r sc c hr hs hc
    obtain ⟨s2, k1, _, _, _, _, k6, _⟩ := frames_ok (ds ++ [d]) s r sc c hr hs hc
    rw [hm] at h6 h7 k6
    refine ⟨s1, s2, _, _, h1, h6, rfl, by simpa using h7, sum_map_rate ds, k1, k6, ?_⟩
    simp only [List.sum_append, List.sum_cons, List.sum_nil]
    nlinarith
  · obtain ⟨t2, a1, _, _, _, _, a6, _⟩ := frames_ok [0.1, 0.2] walkLoaded ⟨800, 600, false⟩
      (sceneWith ⟨10, ["Walk"]⟩) ⟨800 / 600, 800 / 600⟩ rfl rfl rfl
    obtain ⟨t3, b1, _, _, _, _, b6, _⟩ := frames_ok (List.replicate 5 (1 / 60)) walkLoaded
      ⟨800, 600, false⟩ (sceneWith ⟨10, ["Walk"]⟩) ⟨800 / 600, 800 / 600⟩ rfl rfl rfl
    refine ⟨_, _, t2, t3, ⟨10, 0, [⟨"Walk", 10⟩]⟩, _, _, effect_blank 800 600 0,
      walk_loaded, rfl, rfl, a1, a6, ?_,
      b1, b6, rfl, ?_⟩
    · show (0 : ℚ) + 0.65 * [0.1, 0.2].sum = 0.195
      norm_num
    · show (0 : ℚ) + 0.65 * (List.replicate 5 (1 / 60 : ℚ)).sum = 13 / 240
      norm_num

theorem clip_time_accumulates_witness :
    walkLoaded.renderer = some ⟨800, 600, false⟩ ∧
      walkLoaded.scene = some (sceneWith ⟨10, ["Walk"]⟩) ∧
      walkLoaded.camera = some ⟨800 / 600, 800 / 600⟩ ∧
      walkLoaded.mixer = some ⟨10, 0, [⟨"Walk", 10⟩]⟩ ∧ (0 : ℚ) ≤ 1 / 60 ∧
      ((∃ s1 s2 m1 m2, frames [1 / 10, 1 / 5] walkLoaded = .ok s1 ∧ s1.mixer = some m1 ∧
        m1.time = (Mixer.mk 10 0 [⟨"Walk", 10⟩]).time + 0.65 * [(1 / 10 : ℚ), 1 / 5].sum ∧
        updates s1.calls
          = updates walkLoaded.calls ++ [(1 / 10 : ℚ), 1 / 5].map (fun x => x * 0.65) ∧
        ([(1 / 10 : ℚ), 1 / 5].map (fun x => x * 0.65)).sum
          = 0.65 * [(1 / 10 : ℚ), 1 / 5].sum ∧
        frames ([1 / 10, 1 / 5] ++ [1 / 60]) walkLoaded = .ok s2 ∧ s2.mixer = some m2 ∧
        m1.time ≤ m2.time) ∧
      ∃ t0 t1 t2 t3 n1 n2 n3, effect 0 (blank 800 600) = .ok t0 ∧
        loadComplete (assetUrl "Walk") ⟨10, ["Walk"]⟩ (loadAsset "Walk" t0)
          = .ok t1 ∧ t1.mixer = some n1 ∧ n1.time = 0 ∧
        frames [0.1, 0.2] t1 = .ok t2 ∧ t2.mixer = some n2 ∧ n2.time = 0.195 ∧
        frames (List.replicate 5 (1 / 60)) t1 = .ok t3 ∧ t3.mixer = some n3 ∧
        n3.actions = [⟨"Walk", 10⟩] ∧ n3.time = 13 / 240) :=
  ⟨rfl, rfl, rfl, rfl, by norm_num,
    clip_time_accumulates [1 / 10, 1 / 5] (1 / 60) walkLoaded ⟨800, 600, false⟩
      (sceneWith ⟨10, ["Walk"]⟩) ⟨800 / 600, 800 / 600⟩ ⟨10, 0, [⟨"Walk", 10⟩]⟩
      rfl rfl rfl rfl (by norm_num)⟩

/-- C3, as the code has it: a load-completion callback delivering a group with
no clips leaves the `mixer` variable as it was.  When no mixer was bound, none
is bound afterwards and the frames that follow make no `mixer.update` call;
a mixer that was bound stays bound. -/
theorem empty_animation_keeps_mixer (url : String) (g : Group) (ds : List ℚ)
    (s : Component) (r : Renderer) (sc : Scene) (c : Camera)
    (hr : s.renderer = some r) (hs : s.scene = some sc) (hc : s.camera = some c)
    (hu : url ∈ s.pendingLoads) (hg : g.animations = []) :
    ∃ s1 s2, loadComplete url g s = .ok s1 ∧ s1.mixer = s.mixer ∧
      frames ds s1 = .ok s2 ∧
      (s.mixer = none →
        s1.mixer = none ∧ s2.mixer = none ∧ updates s2.calls = updates s1.calls) := by
  obtain ⟨s2, h1, _, _, _, _, h6, h7⟩ := frames_ok ds
    { s with pendingLoads := s.pendingLoads.erase url,
             scene := some (onLoad g sc s.mixer).1,
             mixer := (onLoad g sc s.mixer).2 }
    r (onLoad g sc s.mixer).1 c hr rfl hc
  refine ⟨_, s2, loadComplete_ok url g s sc hs hu, onLoad_mixer_nil g sc s.mixer hg, h1, ?_⟩
  intro hm
  have hm1 : (onLoad g sc s.mixer).2 = none := by rw [onLoad_mixer_nil g sc s.mixer hg, hm]
  simp only [hm1] at h6 h7
  exact ⟨hm1, by simpa using h6, by simpa using h7⟩

theorem empty_animation_keeps_mixer_witness :
    (mounted 800 600 0).renderer = some ⟨800, 600, false⟩ ∧
      (mounted 800 600 0).scene = some initScene ∧
      (mounted 800 600 0).camera = some ⟨800 / 600, 800 / 600⟩ ∧
      assetUrl "Samba Dancing" ∈ (mounted 800 600 0).pendingLoads ∧
      (Group.mk 9 []).animations = [] ∧
      ∃ s1 s2, loadComplete (assetUrl "Samba Dancing") ⟨9, []⟩ (mounted 800 600 0) = .ok s1 ∧
        s1.mixer = (mounted 800 600 0).mixer ∧
        frames [1 / 60, 1 / 60] s1 = .ok s2 ∧
        ((mounted 800 600 0).mixer = none →
          s1.mixer = none ∧ s2.mixer = none ∧ updates s2.calls = updates s1.calls) :=
  ⟨rfl, rfl, rfl, by decide, rfl,
    empty_animation_keeps_mixer (assetUrl "Samba Dancing") ⟨9, []⟩ [1 / 60, 1 / 60]
      (mounted 800 600 0) ⟨800, 600, false⟩ initScene ⟨800 / 600, 800 / 600⟩
      rfl rfl rfl (by decide) rfl⟩

/-- C3 fails as stated: after the effect, the load issued by `init` delivers a
group with one clip and a mixer is bound to it; the callback of a later load
delivers a group without clips.  Afterwards the mixer is still bound to the
first group, which is no longer in the scene, and the next frame passes it
`delta * 0.65`. -/
theorem empty_animation_counterexample :
    ∃ s0 s1 s2 s3 sc m, effect 0 (blank 800 600) = .ok s0 ∧
      loadComplete (assetUrl "Samba Dancing") ⟨10, ["mixamo.com"]⟩ s0 = .ok s1 ∧
      (Group.mk 11 []).animations = [] ∧
      loadComplete (assetUrl "Pose") ⟨11, []⟩ (loadAsset "Pose" s1) = .ok s2 ∧
      s2.mixer = some m ∧ m.root = 10 ∧ m.actions = [⟨"mixamo.com", 10⟩] ∧
      s2.scene = some sc ∧ sc.children = staticEntities ++ [Group.toObj ⟨11, []⟩] ∧
      Group.toObj ⟨10, ["mixamo.com"]⟩ ∉ sc.children ∧
      animate (1 / 60) s2 = .ok s3 ∧
      updates s3.calls = updates s2.calls ++ [1 / 60 * 0.65] ∧
      mixerTime s3 = mixerTime s2 + 1 / 60 * 0.65 :=
  ⟨_, _, _, _, sceneWith ⟨11, []⟩, ⟨10, 0, [⟨"mixamo.com", 10⟩]⟩, rfl, rfl, rfl, rfl, rfl,
    rfl, rfl, rfl, rfl, by decide, rfl, rfl, rfl⟩

/-- C5, as the code has it: on an initialised component, before or after a load
has resolved, the cleanup function completes without error, run once or
twice, and the second run changes nothing; it unregisters the resize listener
and disposes the renderer.  It does not touch the frame loop: the frames
requested stay requested, the next one is delivered, renders, and requests
one more. -/
theorem teardown_leaves_loop (d : ℚ) (s : Component) (r : Renderer) (sc : Scene)
    (c : Camera) (hr : s.renderer = some r) (hs : s.scene = some sc)
    (hc : s.camera = some c) (hp : 0 < s.scheduled) :
    ∃ s1 s2 s3, cleanup s = .ok s1 ∧ cleanup s1 = .ok s2 ∧ s2 = s1 ∧
      s1.resizeListener = false ∧ s1.renderer = some ⟨r.width, r.height, true⟩ ∧
      s1.scene = s.scene ∧ s1.scheduled = s.scheduled ∧
      fireFrame d s1 = .ok s3 ∧ s3.scheduled = s.scheduled ∧
      s3.calls = s1.calls ++ frameCalls d s1.mixer sc.children c.projectionAspect := by
  obtain ⟨s1, h1, h2, h3, h4, h5, h6, h7, _, _, _⟩ := cleanup_spec s sc hs
  have hr1 : s1.renderer = some ⟨r.width, r.height, true⟩ := by rw [h4, hr]; rfl
  obtain ⟨s3, k1, k2, k3⟩ := fireFrame_spec d s1 _ sc c hr1 (h5.trans hs) (h6.trans hc)
    (by omega)
  exact ⟨s1, s1, s3, h1, h2, rfl, h3, hr1, h5, h7, k1, k2.trans h7, k3⟩

theorem teardown_leaves_loop_witness :
    (mounted 800 600 0).renderer = some ⟨800, 600, false⟩ ∧
      (mounted 800 600 0).scene = some initScene ∧
      (mounted 800 600 0).camera = some ⟨800 / 600, 800 / 600⟩ ∧
      0 < (mounted 800 600 0).scheduled ∧
      ∃ s1 s2 s3, cleanup (mounted 800 600 0) = .ok s1 ∧ cleanup s1 = .ok s2 ∧ s2 = s1 ∧
        s1.resizeListener = false ∧
        s1.renderer = some ⟨(Renderer.mk 800 600 false).width,
          (Renderer.mk 800 600 false).height, true⟩ ∧
        s1.scene = (mounted 800 600 0).scene ∧
        s1.scheduled = (mounted 800 600 0).scheduled ∧
        fireFrame (1 / 60) s1 = .ok s3 ∧ s3.scheduled = (mounted 800 600 0).scheduled ∧
        s3.calls = s1.calls ++ frameCalls (1 / 60) s1.mixer initScene.children
          (Camera.mk (800 / 600) (800 / 600)).projectionAspect :=
  ⟨rfl, rfl, rfl, by decide,
    teardown_leaves_loop (1 / 60) (mounted 800 600 0) ⟨800, 600, false⟩ initScene
      ⟨800 / 600, 800 / 600⟩ rfl rfl rfl (by decide)⟩

/-- C5 fails as stated: after the effect and then the cleanup function, the
frame requested by `animate` is still pending; it is delivered, renders, and
requests another frame. -/
theorem teardown_counterexample :
    ∃ s0 s1 s2, effect 0 (blank 800 600) = .ok s0 ∧ cleanup s0 = .ok s1 ∧
      s1.scheduled = 1 ∧ fireFrame (1 / 60) s1 = .ok s2 ∧
      s2.calls = s1.calls ++ [Call.requestAnimationFrame, Call.getDelta (1 / 60),
        Call.render initScene.children (800 / 600)] ∧
      s2.scheduled = 1 :=
  ⟨_, _, _, rfl, rfl, rfl, rfl, rfl, rfl⟩

/-- C6, as the code has it: a load-completion callback that arrives after the
cleanup function raises no error and does what it does at any other time.
The first Group child of the scene, if there is one, is removed, and the
delivered group is appended as the last child; with at most one Group before,
the children afterwards are the non-Group children followed by the delivered
group, so the scene changes.  A group with a clip gets a new mixer bound to
it, playing its first clip; only for a group without clips is the mixer left
as the cleanup left it. -/
theorem late_load_still_attaches (url : String) (g : Group) (s : Component) (sc : Scene)
    (hs : s.scene = some sc) (hu : url ∈ s.pendingLoads) :
    ∃ s1 s2 sc2, cleanup s = .ok s1 ∧ s1.scene = some sc ∧
      loadComplete url g s1 = .ok s2 ∧ s2.scene = some sc2 ∧
      sc2.children = (match sc.children.find? isGroup with
        | some obj => (sc.children.erase obj).erase g.toObj ++ [g.toObj]
        | none => sc.children ++ [g.toObj]) ∧
      (∀ obj, sc.children.find? isGroup = some obj →
        obj ∈ sc.children ∧ isGroup obj = true ∧
        groupCount (sc.children.erase obj) + 1 = groupCount sc.children) ∧
      (groupCount sc.children ≤ 1 →
        sc2.children = staticPart sc.children ++ [g.toObj] ∧ groupCount sc2.children = 1) ∧
      (g.toObj ∉ sc.children → groupCount sc2.children = groupCount sc.children - 1 + 1) ∧
      sc2.children.getLast? = some g.toObj ∧
      staticPart sc2.children = staticPart sc.children ∧
      sc2 = (onLoad g sc s1.mixer).1 ∧
      s2.mixer = (match g.animations with
        | clip :: _ => some ⟨g.uuid, 0, [⟨clip, g.uuid⟩]⟩
        | [] => s1.mixer) ∧
      s2.pendingLoads = s.pendingLoads.erase url := by
  obtain ⟨s1, h1, _, _, _, h5, _, _, _, h9, _⟩ := cleanup_spec s sc hs
  have hs1 : s1.scene = some sc := h5.trans hs
  have hch := onLoad_children g sc s1.mixer
  refine ⟨s1, _, _, h1, hs1, loadComplete_ok url g s1 sc hs1 (by rw [h9]; exact hu), rfl,
    ?_, ?_, ?_, ?_, ?_, staticPart_onLoad g sc _, rfl, ?_, by rw [h9]⟩
  · rw [hch]
    cases hf : sc.children.find? isGroup with
    | some obj =>
      have hany : sc.children.any isGroup = true :=
        List.any_eq_true.mpr ⟨obj, List.mem_of_find?_eq_some hf, List.find?_some hf⟩
      simp [cleared, hany, hf]
    | none =>
      have h0 : groupCount sc.children = 0 := by
        unfold groupCount
        rw [List.countP_eq_zero]
        intro a ha
        simpa using (List.find?_eq_none.mp hf) a ha
      have hcl : cleared sc.children = sc.children := by
        rw [cleared_of_le_one _ (by omega), staticPart_eq_self _ h0]
      rw [hcl, List.erase_of_not_mem (toObj_not_mem _ g h0)]
  · intro obj hf
    exact ⟨List.mem_of_find?_eq_some hf, List.find?_some hf,
      groupCount_erase _ _ (List.mem_of_find?_eq_some hf) (List.find?_some hf)⟩
  · intro hle
    exact ⟨onLoad_children_of_le_one g sc _ hle, groupCount_onLoad g sc _ hle⟩
  · intro hnot
    have hnot1 : g.toObj ∉ cleared sc.children := by
      intro hm
      apply hnot
      unfold cleared at hm
      split at hm
      · split at hm
        · exact List.mem_of_mem_erase hm
        · exact hm
      · exact hm
    rw [hch, List.erase_of_not_mem hnot1]
    have : groupCount (cleared sc.children ++ [g.toObj])
        = groupCount (cleared sc.children) + 1 := by
      unfold groupCount
      rw [List.countP_append]
      simp [isGroup_toObj]
    rw [this, groupCount_cleared]
  · rw [hch]
    simp
  · cases hg : g.animations with
    | nil => exact onLoad_mixer_nil g sc _ hg
    | cons clip rest => exact onLoad_mixer_cons g sc _ clip rest hg

theorem late_load_still_attaches_witness :
    walkLoaded.scene = some (sceneWith ⟨10, ["Walk"]⟩) ∧
      assetUrl "Samba Dancing" ∈ walkLoaded.pendingLoads ∧
      ∃ s1 s2 sc2, cleanup walkLoaded = .ok s1 ∧
        s1.scene = some (sceneWith ⟨10, ["Walk"]⟩) ∧
        loadComplete (assetUrl "Samba Dancing") ⟨11, ["mixamo.com"]⟩ s1 = .ok s2 ∧
        s2.scene = some sc2 ∧
        sc2.children = (match (sceneWith ⟨10, ["Walk"]⟩).children.find? isGroup with
          | some obj => ((sceneWith ⟨10, ["Walk"]⟩).children.erase obj).erase
              (Group.toObj ⟨11, ["mixamo.com"]⟩) ++ [Group.toObj ⟨11, ["mixamo.com"]⟩]
          | none => (sceneWith ⟨10, ["Walk"]⟩).children
              ++ [Group.toObj ⟨11, ["mixamo.com"]⟩]) ∧
        (∀ obj, (sceneWith ⟨10, ["Walk"]⟩).children.find? isGroup = some obj →
          obj ∈ (sceneWith ⟨10, ["Walk"]⟩).children ∧ isGroup obj = true ∧
          groupCount ((sceneWith ⟨10, ["Walk"]⟩).children.erase obj) + 1
            = groupCount (sceneWith ⟨10, ["Walk"]⟩).children) ∧
        (groupCount (sceneWith ⟨10, ["Walk"]⟩).children ≤ 1 →
          sc2.children = staticPart (sceneWith ⟨10, ["Walk"]⟩).children
            ++ [Group.toObj ⟨11, ["mixamo.com"]⟩] ∧ groupCount sc2.children = 1) ∧
        (Group.toObj ⟨11, ["mixamo.com"]⟩ ∉ (sceneWith ⟨10, ["Walk"]⟩).children →
          groupCount sc2.children
            = groupCount (sceneWith ⟨10, ["Walk"]⟩).children - 1 + 1) ∧
        sc2.children.getLast? = some (Group.toObj ⟨11, ["mixamo.com"]⟩) ∧
        staticPart sc2.children = staticPart (sceneWith ⟨10, ["Walk"]⟩).children ∧
        sc2 = (onLoad ⟨11, ["mixamo.com"]⟩ (sceneWith ⟨10, ["Walk"]⟩) s1.mixer).1 ∧
        s2.mixer = (match (Group.mk 11 ["mixamo.com"]).animations with
          | clip :: _ => some ⟨(Group.mk 11 ["mixamo.com"]).uuid, 0,
              [⟨clip, (Group.mk 11 ["mixamo.com"]).uuid⟩]⟩
          | [] => s1.mixer) ∧
        s2.pendingLoads = walkLoaded.pendingLoads.erase (assetUrl "Samba Dancing") :=
  ⟨rfl, by decide,
    late_load_still_attaches (assetUrl "Samba Dancing") ⟨11, ["mixamo.com"]⟩
      walkLoaded (sceneWith ⟨10, ["Walk"]⟩) rfl (by decide)⟩

/-- C6 fails as stated: after the effect and then the cleanup function, the
callback of the load issued by `init` delivers a group with one clip; the
scene, which held the four static entities, now holds the group as well, and
the mixer, which was unbound, is bound to the group. -/
theorem late_load_counterexample :
    ∃ s0 s1 s2, effect 0 (blank 800 600) = .ok s0 ∧ cleanup s0 = .ok s1 ∧
      s1.scene = some initScene ∧ s1.mixer = none ∧
      loadComplete (assetUrl "Samba Dancing") ⟨10, ["mixamo.com"]⟩ s1 = .ok s2 ∧
      s2.scene = some (sceneWith ⟨10, ["mixamo.com"]⟩) ∧
      s2.mixer = some ⟨10, 0, [⟨"mixamo.com", 10⟩]⟩ ∧
      s2.scene ≠ s1.scene ∧ s2.mixer ≠ s1.mixer :=
  ⟨_, _, _, rfl, rfl, rfl, rfl, rfl, rfl, rfl, by decide, by decide⟩

end Animation
